import Mathlib

/-!
Verification development for the Job Listing API scraper core
(app/scrapers/jobs_botswana.py, app/scrapers/base.py, app/scrapers/registry.py).

The Python code is shallowly embedded:
- HTML documents (BeautifulSoup trees) become the inductive type HNode;
  the BeautifulSoup operations used by the code (find, find_all with a
  tag/class filter, get_text with and without strip, attribute access)
  are modelled as pure functions over HNode in document order.
- Python string operations are modelled by helpers (pyCapitalize,
  pyTruthy for Python truthiness of optional strings, ...).
- The external fetch collaborator is modelled by passing its outcome
  (Except errorMessage (Option soup)) as an explicit argument.
- datetime arithmetic is modelled with integer seconds; the two
  utcnow() reads inside one cache call are modelled as one instant.
-/

/-! ## HTML document model (BeautifulSoup trees) -/

/-- A parsed HTML node: either a text node or an element with a tag name,
a class list, an attribute list and children. -/
inductive HNode where
  | text (s : String)
  | elem (tag : String) (classes : List String) (attrs : List (String × String)) (children : List HNode)
deriving Repr

namespace HNode

def tagOf : HNode → Option String
  | .text _ => none
  | .elem t _ _ _ => some t

def classList : HNode → List String
  | .text _ => []
  | .elem _ cs _ _ => cs

def attrList : HNode → List (String × String)
  | .text _ => []
  | .elem _ _ as _ => as

def childList : HNode → List HNode
  | .text _ => []
  | .elem _ _ _ ch => ch

/-- Model of tag.get(key): the attribute value when present. -/
def getAttr (n : HNode) (k : String) : Option String :=
  (attrList n).lookup k

/-- Tag-name test used to model find/find_all with a name argument. -/
def isTag (n : HNode) (t : String) : Bool :=
  tagOf n == some t

/-- Class test modelling the class underscore keyword of find/find_all:
matches when the class is among the node classes. -/
def hasClass (n : HNode) (c : String) : Bool :=
  (classList n).contains c

end HNode

open HNode

mutual
/-- Model of tag.find_all(pred): all strict descendants satisfying the
predicate, in document order. -/
def findAll (p : HNode → Bool) : HNode → List HNode
  | .text _ => []
  | .elem _ _ _ ch => findAllL p ch
/-- find_all over a sibling list, pre-order. -/
def findAllL (p : HNode → Bool) : List HNode → List HNode
  | [] => []
  | c :: rest => (if p c then [c] else []) ++ findAll p c ++ findAllL p rest
end

/-- Model of tag.find(pred): the first descendant match in document order. -/
def findFirst (p : HNode → Bool) (n : HNode) : Option HNode :=
  (findAll p n).head?

mutual
/-- Model of tag.get_text(): concatenation of all text descendants. -/
def getTextRaw : HNode → String
  | .text s => s
  | .elem _ _ _ ch => getTextRawL ch
def getTextRawL : List HNode → String
  | [] => ""
  | c :: rest => getTextRaw c ++ getTextRawL rest
end

/-- Model of str.strip(): whitespace removed from both ends.  (The
Lean core String.trim is not used because it does not reduce inside the
kernel; this list implementation does.) -/
def pyStrip (s : String) : String :=
  String.mk (((s.data.dropWhile Char.isWhitespace).reverse.dropWhile Char.isWhitespace).reverse)

mutual
/-- Model of tag.get_text(strip=True): concatenation of the stripped
text descendants. -/
def getTextStrip : HNode → String
  | .text s => pyStrip s
  | .elem _ _ _ ch => getTextStripL ch
def getTextStripL : List HNode → String
  | [] => ""
  | c :: rest => getTextStrip c ++ getTextStripL rest
end

/-! ## Python string and truthiness helpers -/

/-- Python truthiness of an optional string: None and the empty string
are falsy. -/
def pyTruthy : Option String → Bool
  | none => false
  | some s => !s.isEmpty

/-- Model of str.capitalize(): first character upper-cased, the rest
lower-cased. -/
def pyCapitalize (s : String) : String :=
  match s.data with
  | [] => ""
  | c :: rest => String.mk (c.toUpper :: rest.map Char.toLower)

/-- Model of str.lower() (ASCII case mapping). -/
def pyLower (s : String) : String :=
  String.mk (s.data.map Char.toLower)

/-- Model of str.isdigit() for ASCII digit strings: nonempty and all
characters are digits. -/
def pyIsdigit (s : String) : Bool :=
  !s.isEmpty && s.data.all Char.isDigit

/-- Attempt to strip pat off the front of cs: the remainder when pat
is a prefix. -/
def dropPrefixCh : List Char → List Char → Option (List Char)
  | [], cs => some cs
  | _ :: _, [] => none
  | p :: ps, c :: cs => if c == p then dropPrefixCh ps cs else none

/-- Model of str.startswith(pat). -/
def pyStartsWith (s pat : String) : Bool :=
  (dropPrefixCh pat.data s.data).isSome

/-- Splitter on a nonempty separator, scanning left to right over
non-overlapping matches; the fuel argument bounds the scan so that the
recursion is structural and kernel-computable. -/
def splitOnFuel (sep : List Char) : Nat → List Char → List Char → List (List Char)
  | _, [], acc => [acc.reverse]
  | 0, cs, acc => [acc.reverse ++ cs]
  | fuel + 1, c :: cs, acc =>
    match dropPrefixCh sep (c :: cs) with
    | some rest => acc.reverse :: splitOnFuel sep fuel rest []
    | none => splitOnFuel sep fuel cs (c :: acc)

/-- Model of str.split(sep) for a nonempty separator. -/
def pySplit (s sep : String) : List String :=
  (splitOnFuel sep.data s.data.length s.data []).map String.mk

/-- Replacement scanner for a nonempty pattern; fuel as in
splitOnFuel. -/
def replaceFuel (pat rep : List Char) : Nat → List Char → List Char
  | _, [] => []
  | 0, cs => cs
  | fuel + 1, c :: cs =>
    match dropPrefixCh pat (c :: cs) with
    | some rest => rep ++ replaceFuel pat rep fuel rest
    | none => c :: replaceFuel pat rep fuel cs

/-- Model of str.replace(pat, rep) for a nonempty pattern: every
non-overlapping occurrence, left to right. -/
def pyReplace (s pat rep : String) : String :=
  String.mk (replaceFuel pat.data rep.data s.data.length s.data)

/-- Python membership test sep in s for a nonempty separator, expressed
through splitting: the separator occurs iff splitting produces more than
one part. -/
def pyIn (sep s : String) : Bool :=
  (pySplit s sep).length != 1

/-- Numeric value of a decimal digit string, as produced by int() on a
string of digits. -/
def digitsToNat (ds : List Char) : Nat :=
  ds.foldl (fun a c => a * 10 + (c.toNat - 48)) 0

/-- The shared title-casing rule for slug-derived values:
space-join of capitalize() over the hyphen-split words. -/
def titleCaseSlug (s : String) : String :=
  String.intercalate " " ((pySplit s "-").map pyCapitalize)

/-! ## Data model (app/models/job.py) -/

/-- Model of models.job.PaginationInfo. -/
structure PaginationInfo where
  current_page : Int
  total_pages : Int
  total_jobs : Int
  jobs_per_page : Int
  has_next : Bool
  has_previous : Bool
  next_page : Option Int := none
  previous_page : Option Int := none
deriving Repr, DecidableEq

/-- Model of models.job.JobListing (scraped_at, a wall-clock timestamp,
is not modelled). -/
structure JobListing where
  id : Option String := none
  title : String
  url : String
  company : Option String := none
  job_type : Option String := none
  location : Option String := none
  closing_date : Option String := none
  posted_date : Option String := none
  category : Option String := none
  posted_ago : Option String := none
  description : Option String := none
  is_closed : Bool := false
  source : String
deriving Repr, DecidableEq

/-- Model of models.job.JobListingsResponse (fetched_at not modelled;
the filters_applied dict is a key-value list in insertion order). -/
structure JobListingsResponse where
  success : Bool
  message : String
  data : List JobListing
  pagination : PaginationInfo
  filters_applied : List (String × String)
  source : String
deriving Repr, DecidableEq

/-- Model of models.job.JobCategory. -/
structure JobCategory where
  slug : String
  name : String
  count : Int := 0
  url : Option String := none
deriving Repr, DecidableEq

/-- Model of models.job.JobLocation. -/
structure JobLocation where
  slug : String
  name : String
  count : Int := 0
  description : Option String := none
  url : Option String := none
deriving Repr, DecidableEq

/-- Model of models.job.SourceInfo. -/
structure SourceInfo where
  id : String
  name : String
  base_url : String
  description : Option String := none
  supported_filters : List String := []
  is_active : Bool := true
deriving Repr, DecidableEq

/-! ## JobsBotswanaScraper constants -/

/-- JobsBotswanaScraper.base_url. -/
def base_url : String := "https://jobsbotswana.info"

/-- JobsBotswanaScraper.source_name. -/
def source_name : String := "Jobs Botswana"

/-! ## Listing URL builder (jobs_botswana.py, build listing url) -/

/-- Model of JobsBotswanaScraper listing URL construction
(the private builder at jobs_botswana.py lines 38-86).  The three
filters keep their Python Optional type; Python truthiness (None and
the empty string are falsy) is rendered by pyTruthy. -/
def build_listing_url (page : Int) (category location job_type : Option String) : String :=
  if pyTruthy category && !pyTruthy location && !pyTruthy job_type then
    if page == 1 then
      base_url ++ "/job-category/" ++ category.getD "" ++ "/"
    else
      base_url ++ "/job-category/" ++ category.getD "" ++ "/page/" ++ toString page ++ "/"
  else if pyTruthy location && !pyTruthy category && !pyTruthy job_type then
    if page == 1 then
      base_url ++ "/job-location/" ++ location.getD "" ++ "/"
    else
      base_url ++ "/job-location/" ++ location.getD "" ++ "/page/" ++ toString page ++ "/"
  else if pyTruthy job_type && !pyTruthy category && !pyTruthy location then
    if page == 1 then
      base_url ++ "/job-type/" ++ job_type.getD "" ++ "/"
    else
      base_url ++ "/job-type/" ++ job_type.getD "" ++ "/page/" ++ toString page ++ "/"
  else
    let url := if page == 1 then base_url ++ "/jobs/"
               else base_url ++ "/jobs/page/" ++ toString page ++ "/"
    let params :=
      (if pyTruthy category then ["category=" ++ category.getD ""] else []) ++
      (if pyTruthy location then ["location=" ++ location.getD ""] else []) ++
      (if pyTruthy job_type then ["type=" ++ job_type.getD ""] else [])
    if params.isEmpty then url else url ++ "?" ++ String.intercalate "&" params

/-- Number of filters that are set (present), as the claim counts them. -/
def filtersSetCount (category location job_type : Option String) : Nat :=
  (if category.isSome then 1 else 0) +
  (if location.isSome then 1 else 0) +
  (if job_type.isSome then 1 else 0)

/-- Listing URL as the specification words it (claim C6): with exactly
one filter set, a clean path base/job-dimension/slug/ plus /page/n/ when
page exceeds 1 and no query string; otherwise the path base/jobs/ plus
/page/n/ when page exceeds 1, followed by a query string joining the
present filters with an ampersand in the fixed order category, location,
type, when any filter is present. -/
def specListingUrl (page : Int) (category location job_type : Option String) : String :=
  if filtersSetCount category location job_type == 1 then
    let dimSlug :=
      match category, location, job_type with
      | some c, _, _ => ("category", c)
      | _, some l, _ => ("location", l)
      | _, _, some t => ("type", t)
      | none, none, none => ("", "")
    let path := base_url ++ "/job-" ++ dimSlug.1 ++ "/" ++ dimSlug.2 ++ "/"
    if page > 1 then path ++ "page/" ++ toString page ++ "/" else path
  else
    let path := if page > 1 then base_url ++ "/jobs/page/" ++ toString page ++ "/"
                else base_url ++ "/jobs/"
    let params :=
      (match category with | some c => ["category=" ++ c] | none => []) ++
      (match location with | some l => ["location=" ++ l] | none => []) ++
      (match job_type with | some t => ["type=" ++ t] | none => [])
    if params.isEmpty then path else path ++ "?" ++ String.intercalate "&" params

/-! ## Per-entry field extractors (jobs_botswana.py lines 88-296) -/

/-- Model of the job-id extractor: the first class matching the anchored
pattern post-(digits); the captured group is the maximal digit run after
the prefix. -/
def extract_job_id (article : HNode) : Option String :=
  (classList article).findSome? (fun cls =>
    if pyStartsWith cls "post-" then
      let ds := (cls.drop 5).data.takeWhile Char.isDigit
      if ds.isEmpty then none else some (String.mk ds)
    else none)

/-- Ordered dash-like separator list used for company extraction. -/
def companySeparators : List String := [" – ", " - ", " — ", "–", "-"]

/-- Company from the class list: the first class starting with the
job underscore company marker, with the prefix and the job-vacancies
suffix stripped and each hyphen-separated word capitalized
(jobs_botswana.py lines 99-105). -/
def companyFromClasses (article : HNode) : Option String :=
  (classList article).findSome? (fun cls =>
    if pyStartsWith cls "job_company-" then
      some (titleCaseSlug (pyReplace (pyReplace cls "job_company-" "") "-job-vacancies" ""))
    else none)

/-- Company from the entry title: the h3.loop-item-title text is split
on the first separator (in order) it contains and the last trimmed
segment is returned (jobs_botswana.py lines 107-115). -/
def companyFromTitle (article : HNode) : Option String :=
  match findFirst (fun n => isTag n "h3" && hasClass n "loop-item-title") article with
  | some title_elem =>
    let title_text := getTextStrip title_elem
    companySeparators.findSome? (fun sep =>
      if pyIn sep title_text then
        let parts := pySplit title_text sep
        if parts.length > 1 then some (pyStrip (parts.getLastD "")) else none
      else none)
  | none => none

/-- Model of the company extractor: class-marker strategy first, title
split second (jobs_botswana.py lines 97-117). -/
def extract_company (article : HNode) : Option String :=
  match companyFromClasses article with
  | some c => some c
  | none => companyFromTitle article

/-- Text of a heading element: the nested link text when a link exists,
the heading text otherwise. -/
def headingText (te : HNode) : String :=
  match findFirst (fun n => isTag n "a") te with
  | some link => getTextStrip link
  | none => getTextStrip te

/-- Model of the title extractor (jobs_botswana.py lines 119-142):
h3.loop-item-title text, else any h3 text, else the data-title
attribute when truthy. -/
def extract_title (article : HNode) : Option String :=
  match findFirst (fun n => isTag n "h3" && hasClass n "loop-item-title") article with
  | some te => some (headingText te)
  | none =>
  match findFirst (fun n => isTag n "h3") article with
  | some te => some (headingText te)
  | none =>
  match article.getAttr "data-title" with
  | some dt => if !dt.isEmpty then some dt else none
  | none => none

/-- A truthy attribute value: Python code of the form
x.get(key) guarded by an if on its truthiness. -/
def truthyAttr (n : HNode) (k : String) : Option String :=
  match n.getAttr k with
  | some v => if !v.isEmpty then some v else none
  | none => none

/-- Truthy href of the first nested link of an element, when both
exist. -/
def linkHref (te : HNode) : Option String :=
  match findFirst (fun n => isTag n "a") te with
  | some link => truthyAttr link "href"
  | none => none

/-- Model of the URL extractor (jobs_botswana.py lines 144-175):
data-url attribute, else h3.loop-item-title link href, else any h3 link
href, else a.job-details-link href, else a.btn-primary href. -/
def extract_url (article : HNode) : Option String :=
  match truthyAttr article "data-url" with
  | some u => some u
  | none =>
  match (findFirst (fun n => isTag n "h3" && hasClass n "loop-item-title") article).bind linkHref with
  | some h => some h
  | none =>
  match (findFirst (fun n => isTag n "h3") article).bind linkHref with
  | some h => some h
  | none =>
  match (findFirst (fun n => isTag n "a" && hasClass n "job-details-link") article).bind (fun l => truthyAttr l "href") with
  | some h => some h
  | none =>
  (findFirst (fun n => isTag n "a" && hasClass n "btn-primary") article).bind (fun l => truthyAttr l "href")

/-- Model of the job-type extractor (jobs_botswana.py lines 177-203). -/
def extract_job_type (article : HNode) : Option String :=
  match findFirst (fun n => isTag n "span" && hasClass n "job-type") article with
  | some jte =>
    (match findFirst (fun n => isTag n "span") jte with
     | some s => some (getTextStrip s)
     | none =>
       match findFirst (fun n => isTag n "a") jte with
       | some link =>
         (match findFirst (fun n => isTag n "span") link with
          | some s => some (getTextStrip s)
          | none => some (getTextStrip link))
       | none => some (getTextStrip jte))
  | none =>
    (classList article).findSome? (fun cls =>
      if pyStartsWith cls "job_type-" then
        some (titleCaseSlug (pyReplace cls "job_type-" ""))
      else none)

/-- Model of the location extractor (jobs_botswana.py lines 205-231). -/
def extract_location (article : HNode) : Option String :=
  match findFirst (fun n => isTag n "span" && hasClass n "job-location") article with
  | some le =>
    (match findFirst (fun n => isTag n "em") le with
     | some em => some (getTextStrip em)
     | none =>
       match findFirst (fun n => isTag n "a") le with
       | some link =>
         (match findFirst (fun n => isTag n "em") link with
          | some em => some (getTextStrip em)
          | none => some (getTextStrip link))
       | none => some (getTextStrip le))
  | none =>
    (classList article).findSome? (fun cls =>
      if pyStartsWith cls "job_location-" then
        some (pyCapitalize (pyReplace cls "job_location-" ""))
      else none)

/-- Model of the closing-date extractor (jobs_botswana.py lines
233-247). -/
def extract_closing_date (article : HNode) : Option String :=
  match findFirst (fun n => isTag n "span" && hasClass n "job-date__closing") article with
  | some de => some (getTextStrip de)
  | none =>
  match findFirst (fun n => isTag n "span" && hasClass n "job-date") article with
  | some ds =>
    (match findFirst (fun n => isTag n "span" && hasClass n "job-date__closing") ds with
     | some c => some (getTextStrip c)
     | none => none)
  | none => none

/-- Model of the posted-date extractor (jobs_botswana.py lines
249-259): the datetime attribute of time.entry-date, else of any time
element; no truthiness guard on the attribute. -/
def extract_posted_date (article : HNode) : Option String :=
  match findFirst (fun n => isTag n "time" && hasClass n "entry-date") article with
  | some t => t.getAttr "datetime"
  | none =>
  match findFirst (fun n => isTag n "time") article with
  | some t => t.getAttr "datetime"
  | none => none

/-- Model of the category extractor (jobs_botswana.py lines 261-284). -/
def extract_category (article : HNode) : Option String :=
  match findFirst (fun n => isTag n "span" && hasClass n "job-category") article with
  | some ce =>
    let links := findAll (fun n => isTag n "a") ce
    if !links.isEmpty then
      some (String.intercalate " - " (links.map getTextStrip))
    else
      some (getTextStrip ce)
  | none =>
    let categories := (classList article).filterMap (fun cls =>
      if pyStartsWith cls "job_category-" then
        some (titleCaseSlug (pyReplace cls "job_category-" ""))
      else none)
    if !categories.isEmpty then some (String.intercalate " - " categories) else none

/-- Model of the posted-ago extractor (jobs_botswana.py lines
286-291). -/
def extract_posted_ago (article : HNode) : Option String :=
  match findFirst (fun n => isTag n "span" && hasClass n "job-date-ago") article with
  | some pe => some (getTextStrip pe)
  | none => none

/-- Model of the closed test (jobs_botswana.py lines 293-296). -/
def is_job_closed (article : HNode) : Bool :=
  (classList article).contains "closed-job"

/-- Model of the single-article parser (jobs_botswana.py lines
298-332): discard when the title or the URL is falsy, otherwise build
the listing record. -/
def parse_job_article (article : HNode) : Option JobListing :=
  let title := extract_title article
  if !pyTruthy title then none else
  let url := extract_url article
  if !pyTruthy url then none else
  some {
    id := extract_job_id article,
    title := title.getD "",
    url := url.getD "",
    company := extract_company article,
    job_type := extract_job_type article,
    location := extract_location article,
    closing_date := extract_closing_date article,
    posted_date := extract_posted_date article,
    category := extract_category article,
    posted_ago := extract_posted_ago article,
    is_closed := is_job_closed article,
    source := source_name }

/-! ## Pagination resolver (jobs_botswana.py lines 334-388) -/

/-- Attempt of the case-insensitive pattern of N job(s) at the head of
the character list: literal of, whitespace, digits, whitespace, literal
job; yields the captured number.  The maximal-munch scan is exact here
because whitespace, digits and letters are disjoint. -/
def matchOfJobsAt (cs : List Char) : Option Nat :=
  match cs with
  | c1 :: c2 :: rest =>
    if c1.toLower == 'o' && c2.toLower == 'f' then
      let (ws1, r1) := rest.span Char.isWhitespace
      if ws1.isEmpty then none else
      let (ds, r2) := r1.span Char.isDigit
      if ds.isEmpty then none else
      let (ws2, r3) := r2.span Char.isWhitespace
      if ws2.isEmpty then none else
      match r3 with
      | j :: o :: b :: _ =>
        if j.toLower == 'j' && o.toLower == 'o' && b.toLower == 'b' then
          some (digitsToNat ds)
        else none
      | _ => none
    else none
  | _ => none

/-- re.search for the of N job(s) pattern: first matching position. -/
def searchOfJobs : List Char → Option Nat
  | [] => none
  | c :: rest =>
    match matchOfJobsAt (c :: rest) with
    | some n => some n
    | none => searchOfJobs rest

/-- Attempt of the pattern Showing A-B (hyphen or en dash) at the head
of the character list; yields both captured numbers. -/
def matchShowingAt (cs : List Char) : Option (Nat × Nat) :=
  match cs with
  | 'S' :: 'h' :: 'o' :: 'w' :: 'i' :: 'n' :: 'g' :: rest =>
    let (ws1, r1) := rest.span Char.isWhitespace
    if ws1.isEmpty then none else
    let (ds1, r2) := r1.span Char.isDigit
    if ds1.isEmpty then none else
    match r2 with
    | d :: r3 =>
      if d == '–' || d == '-' then
        let (ds2, _) := r3.span Char.isDigit
        if ds2.isEmpty then none else some (digitsToNat ds1, digitsToNat ds2)
      else none
    | [] => none
  | _ => none

/-- re.search for the Showing A-B pattern: first matching position. -/
def searchShowing : List Char → Option (Nat × Nat)
  | [] => none
  | c :: rest =>
    match matchShowingAt (c :: rest) with
    | some p => some p
    | none => searchShowing rest

/-- Model of the pagination parser (jobs_botswana.py lines 334-388):
job totals from the count element text, page count from the numeric
page-number labels, then the ceiling recomputation, then the
has-next/has-previous derivation. -/
def parse_pagination (soup : HNode) (current_page : Int) : PaginationInfo :=
  let counts : Int × Int :=
    match findFirst (fun n => isTag n "div" && hasClass n "noo-job-list-count") soup with
    | some count_elem =>
      let text := getTextRaw count_elem
      let tj : Int := match searchOfJobs text.data with
        | some n => (n : Int)
        | none => 0
      let jpp : Int := match searchShowing text.data with
        | some (a, b) => (b : Int) - (a : Int) + 1
        | none => 15
      (tj, jpp)
    | none => (0, 15)
  let total_jobs := counts.1
  let jobs_per_page := counts.2
  let total_pages : Int :=
    match findFirst (fun n => isTag n "div" && hasClass n "pagination") soup with
    | some pagination_elem =>
      (findAll (fun n => (isTag n "a" || isTag n "span") && hasClass n "page-numbers") pagination_elem).foldl
        (fun tp e =>
          let t := getTextStrip e
          if pyIsdigit t then max tp ((digitsToNat t.data : Int)) else tp) 1
    | none => 1
  let total_pages :=
    if total_jobs > 0 && jobs_per_page > 0 then
      max total_pages (Int.fdiv (total_jobs + jobs_per_page - 1) jobs_per_page)
    else total_pages
  let has_next := decide (current_page < total_pages)
  let has_previous := decide (current_page > 1)
  { current_page := current_page,
    total_pages := total_pages,
    total_jobs := total_jobs,
    jobs_per_page := jobs_per_page,
    has_next := has_next,
    has_previous := has_previous,
    next_page := if has_next then some (current_page + 1) else none,
    previous_page := if has_previous then some (current_page - 1) else none }

/-- The pagination value of the listings soft-fail envelope
(jobs_botswana.py lines 420-427): zero totals, both flags false, both
neighbour pages left at their None default. -/
def failPagination (page : Int) : PaginationInfo :=
  { current_page := page,
    total_pages := 0,
    total_jobs := 0,
    jobs_per_page := 0,
    has_next := false,
    has_previous := false }

/-! ## Listing scrape (jobs_botswana.py lines 390-500) -/

/-- Strategy 1: articles with class noo underscore job. -/
def strat1 (soup : HNode) : List HNode :=
  findAll (fun n => isTag n "article" && hasClass n "noo_job") soup

/-- Strategy 2: articles with class loadmore-item. -/
def strat2 (soup : HNode) : List HNode :=
  findAll (fun n => isTag n "article" && hasClass n "loadmore-item") soup

/-- Strategy 3: articles inside div.posts-loop-content. -/
def strat3 (soup : HNode) : List HNode :=
  match findFirst (fun n => isTag n "div" && hasClass n "posts-loop-content") soup with
  | some c => findAll (fun n => isTag n "article") c
  | none => []

/-- Strategy 4: articles inside div.noo-job-list-row. -/
def strat4 (soup : HNode) : List HNode :=
  match findFirst (fun n => isTag n "div" && hasClass n "noo-job-list-row") soup with
  | some c => findAll (fun n => isTag n "article") c
  | none => []

/-- Strategy 5: every article on the page. -/
def strat5 (soup : HNode) : List HNode :=
  findAll (fun n => isTag n "article") soup

/-- Model of the article-location cascade of scrape underscore listings
(jobs_botswana.py lines 437-466): each later strategy runs only when
every earlier one produced no articles. -/
def selectArticles (soup : HNode) : List HNode :=
  let articles := strat1 soup
  let articles := if articles.isEmpty then strat2 soup else articles
  let articles := if articles.isEmpty then strat3 soup else articles
  let articles := if articles.isEmpty then strat4 soup else articles
  let articles := if articles.isEmpty then strat5 soup else articles
  articles

/-- The filters-applied dict assembled at jobs_botswana.py lines
402-408 (a key-value list in insertion order). -/
def filtersApplied (category location job_type : Option String) : List (String × String) :=
  (if pyTruthy category then [("category", category.getD "")] else []) ++
  (if pyTruthy location then [("location", location.getD "")] else []) ++
  (if pyTruthy job_type then [("job_type", job_type.getD "")] else [])

/-- Model of scrape underscore listings (jobs_botswana.py lines
390-500).  The external fetch outcome is passed in: an error message
when fetch underscore page raised, an absent soup for the defensive
soup-is-None branch, or the parsed page. -/
def scrape_listings (fetchResult : Except String (Option HNode)) (page : Int)
    (category location job_type : Option String) : JobListingsResponse :=
  let fa := filtersApplied category location job_type
  match fetchResult with
  | .error e =>
    { success := false,
      message := "Failed to fetch page: " ++ e,
      data := [],
      pagination := failPagination page,
      filters_applied := fa,
      source := source_name }
  | .ok none =>
    { success := false,
      message := "Failed to fetch page: Failed to fetch page - soup is None",
      data := [],
      pagination := failPagination page,
      filters_applied := fa,
      source := source_name }
  | .ok (some soup) =>
    let articles := selectArticles soup
    let jobs := articles.filterMap parse_job_article
    { success := true,
      message := "Successfully fetched " ++ toString jobs.length ++ " jobs",
      data := jobs,
      pagination := parse_pagination soup page,
      filters_applied := fa,
      source := source_name }

/-! ## Detail scrape (jobs_botswana.py lines 502-590) -/

/-- Title of a detail page (jobs_botswana.py lines 515-520):
h1.entry-title, else any h1, stripped text; absent when no h1 exists. -/
def detailTitle (soup : HNode) : Option String :=
  match findFirst (fun n => isTag n "h1" && hasClass n "entry-title") soup with
  | some te => some (getTextStrip te)
  | none =>
  match findFirst (fun n => isTag n "h1") soup with
  | some te => some (getTextStrip te)
  | none => none

/-- The main content container of a detail page (jobs_botswana.py
lines 555-557): div.entry-content, else div.job-content. -/
def contentElem (soup : HNode) : Option HNode :=
  match findFirst (fun n => isTag n "div" && hasClass n "entry-content") soup with
  | some ce => some ce
  | none => findFirst (fun n => isTag n "div" && hasClass n "job-content") soup

/-- The joined text of the first five paragraph elements of the content
container, single-space separated (jobs_botswana.py lines 560-561). -/
def joinedParagraphText (content : HNode) : String :=
  String.intercalate " " (((findAll (fun n => isTag n "p") content).take 5).map getTextStrip)

/-- The stored detail description (jobs_botswana.py lines 554-563):
absent without a content container; otherwise the joined paragraph
text, truncated to its first 1000 characters plus an ellipsis marker
when longer than 1000 characters. -/
def detailDescription (soup : HNode) : Option String :=
  match contentElem soup with
  | some content =>
    let description := joinedParagraphText content
    if description.length > 1000 then some ((description.take 1000) ++ "...")
    else some description
  | none => none

/-- Company from a detail title (jobs_botswana.py lines 566-571): the
same separator-split-last heuristic applied to the title string. -/
def detailCompany (title : String) : Option String :=
  companySeparators.findSome? (fun sep =>
    if pyIn sep title then
      let parts := pySplit title sep
      if parts.length > 1 then some (pyStrip (parts.getLastD "")) else none
    else none)

/-- Job type from the detail meta section (jobs_botswana.py lines
532-541). -/
def detailJobType (soup : HNode) : Option String :=
  let meta := match findFirst (fun n => isTag n "ul" && hasClass n "job-meta") soup with
    | some m => some m
    | none => findFirst (fun n => isTag n "div" && hasClass n "job-meta") soup
  match meta with
  | some m =>
    (match findFirst (fun n => isTag n "span" && hasClass n "job-type") m with
     | some te => some (getTextStrip te)
     | none => none)
  | none => none

/-- Location from the detail meta section (jobs_botswana.py lines
543-546): the labelled span text with the Location: label removed and
stripped. -/
def detailLocation (soup : HNode) : Option String :=
  let meta := match findFirst (fun n => isTag n "ul" && hasClass n "job-meta") soup with
    | some m => some m
    | none => findFirst (fun n => isTag n "div" && hasClass n "job-meta") soup
  match meta with
  | some m =>
    (match findFirst (fun n => isTag n "span" && hasClass n "job-location") m with
     | some le => some (pyStrip (pyReplace (getTextStrip le) "Location:" ""))
     | none => none)
  | none => none

/-- Closing date of a detail page (jobs_botswana.py lines 549-551). -/
def detailClosingDate (soup : HNode) : Option String :=
  match findFirst (fun n => isTag n "span" && hasClass n "job-date__closing") soup with
  | some de => some (getTextStrip de)
  | none => none

/-- Model of scrape underscore job underscore detail (jobs_botswana.py
lines 502-590).  A raised fetch error and an absent soup are both
answered with None (the except branch at lines 510-512 returns None
instead of re-raising); a falsy title is the not-found case. -/
def scrape_job_detail (fetchResult : Except String (Option HNode)) (job_url : String) :
    Option JobListing :=
  match fetchResult with
  | .error _ => none
  | .ok none => none
  | .ok (some soup) =>
    let title := detailTitle soup
    if !pyTruthy title then none else
    some {
      title := title.getD "",
      url := job_url,
      company := detailCompany (title.getD ""),
      job_type := detailJobType soup,
      location := detailLocation soup,
      closing_date := detailClosingDate soup,
      description := detailDescription soup,
      is_closed := (findFirst (fun n => isTag n "div" && hasClass n "job-closed") soup).isSome,
      source := source_name }

/-! ## Facet slug fallback (jobs_botswana.py lines 624-626 and 674-676) -/

/-- Model of str.replace for the single-character needle used by the
slug fallback: a character-wise substitution. -/
def pyReplaceSpace (s : String) : String :=
  String.mk (s.data.map (fun c => if c == ' ' then '-' else c))

/-- The name-derived slug fallback used by scrape underscore categories
and scrape underscore locations when no slug is found in the facet URL:
name.lower().replace(space, hyphen). -/
def nameToSlug (name : String) : String :=
  pyReplaceSpace (pyLower name)

/-! ## Facet cache (base.py lines 36-38 and 174-211) -/

/-- BaseScraper cache TTL in seconds (base.py line 38). -/
def cache_ttl : Int := 300

/-- Model of the cache staleness test (base.py lines 174-179); now and
the capture instant are integer-second timestamps. -/
def is_cache_valid (now : Int) (cache_time : Option Int) : Bool :=
  match cache_time with
  | none => false
  | some t => decide (now - t < cache_ttl)

/-- Model of get underscore categories (base.py lines 181-195).  The
cache slot and the clock are passed in; the scraped value stands for
the awaited scrape result.  Returns the Python return value paired with
the slot after the call. -/
def get_categories (force_refresh : Bool) (cache : Option (List JobCategory × Int))
    (scraped : List JobCategory) (now : Int) :
    (List JobCategory × Bool) × Option (List JobCategory × Int) :=
  if !force_refresh then
    match cache with
    | some (categories, cache_time) =>
      if is_cache_valid now (some cache_time) then ((categories, true), cache)
      else ((scraped, false), some (scraped, now))
    | none => ((scraped, false), some (scraped, now))
  else ((scraped, false), some (scraped, now))

/-- Model of get underscore locations (base.py lines 197-211), the same
logic over the locations slot. -/
def get_locations (force_refresh : Bool) (cache : Option (List JobLocation × Int))
    (scraped : List JobLocation) (now : Int) :
    (List JobLocation × Bool) × Option (List JobLocation × Int) :=
  if !force_refresh then
    match cache with
    | some (locations, cache_time) =>
      if is_cache_valid now (some cache_time) then ((locations, true), cache)
      else ((scraped, false), some (scraped, now))
    | none => ((scraped, false), some (scraped, now))
  else ((scraped, false), some (scraped, now))

/-! ## Scraper registry (registry.py) -/

/-- The data of a registered scraper that the registry consumes: its
identifying properties (base.py abstract properties, realised by
JobsBotswanaScraper). -/
structure Scraper where
  source_id : String
  source_name : String
  base_url : String
  description : String
deriving Repr, DecidableEq

/-- Model of BaseScraper.get underscore source underscore info (base.py
lines 68-77). -/
def scraper_source_info (s : Scraper) : SourceInfo :=
  { id := s.source_id,
    name := s.source_name,
    base_url := s.base_url,
    description := some s.description,
    supported_filters := ["category", "location", "job_type", "page"],
    is_active := true }

/-- An insertion-ordered Python dict from source ids to scrapers. -/
structure PyDict where
  entries : List (String × Scraper)
deriving Repr, DecidableEq

/-- Python dict assignment d[k] = v: replace in place when the key
exists, append otherwise. -/
def setEntries : List (String × Scraper) → String → Scraper → List (String × Scraper)
  | [], k, v => [(k, v)]
  | (k0, v0) :: rest, k, v =>
    if k0 == k then (k, v) :: rest else (k0, v0) :: setEntries rest k v

/-- Python dict lookup d.get(k). -/
def getEntries : List (String × Scraper) → String → Option Scraper
  | [], _ => none
  | (k0, v0) :: rest, k => if k0 == k then some v0 else getEntries rest k

def PyDict.set (d : PyDict) (k : String) (v : Scraper) : PyDict :=
  ⟨setEntries d.entries k v⟩

def PyDict.get? (d : PyDict) (k : String) : Option Scraper :=
  getEntries d.entries k

def PyDict.keys (d : PyDict) : List String :=
  d.entries.map Prod.fst

def PyDict.values (d : PyDict) : List Scraper :=
  d.entries.map Prod.snd

/-- The class object of ScraperRegistry: it carries the class-level
attribute (registry.py line 12), one per process. -/
structure ScraperRegistryClass where
  scrapers : PyDict
deriving Repr, DecidableEq

/-- A ScraperRegistry instance: its own attribute dict may shadow the
class attribute.  No code path ever assigns an instance-level attribute,
but the lookup rule is modelled in full. -/
structure ScraperRegistryInstance where
  own_scrapers : Option PyDict := none
deriving Repr, DecidableEq

/-- ScraperRegistry(): the class has no init assigning instance
attributes, so a fresh instance carries no own dict. -/
def newRegistryInstance : ScraperRegistryInstance := {}

/-- Python attribute lookup self.scrapers attribute: the instance dict
when present, the class attribute otherwise. -/
def registryLookup (inst : ScraperRegistryInstance) (cls : ScraperRegistryClass) : PyDict :=
  inst.own_scrapers.getD cls.scrapers

/-- Model of ScraperRegistry.register (registry.py lines 14-23): the
item assignment mutates whichever dict the attribute lookup found - the
class dict unless the instance shadows it. -/
def registry_register (inst : ScraperRegistryInstance) (cls : ScraperRegistryClass)
    (s : Scraper) : ScraperRegistryInstance × ScraperRegistryClass :=
  match inst.own_scrapers with
  | some d => ({ inst with own_scrapers := some (d.set s.source_id s) }, cls)
  | none => (inst, { cls with scrapers := cls.scrapers.set s.source_id s })

/-- Model of ScraperRegistry.get (registry.py lines 25-29). -/
def registry_get (inst : ScraperRegistryInstance) (cls : ScraperRegistryClass)
    (sid : String) : Option Scraper :=
  (registryLookup inst cls).get? sid

/-- Model of ScraperRegistry.get underscore all (registry.py lines
31-33): a copy of the dict. -/
def registry_get_all (inst : ScraperRegistryInstance) (cls : ScraperRegistryClass) : PyDict :=
  registryLookup inst cls

/-- Model of ScraperRegistry.get underscore source underscore info
(registry.py lines 35-37). -/
def registry_source_info (inst : ScraperRegistryInstance) (cls : ScraperRegistryClass) :
    List SourceInfo :=
  (registryLookup inst cls).values.map scraper_source_info

/-- Model of ScraperRegistry.list underscore sources (registry.py lines
39-41). -/
def registry_list_sources (inst : ScraperRegistryInstance) (cls : ScraperRegistryClass) :
    List String :=
  (registryLookup inst cls).keys

/-! ## Shared lemmas -/

/-- Char.ofNat on a valid codepoint is inverted by toNat. -/
theorem char_toNat_ofNat_valid (n : Nat) (h : n.isValidChar) : (Char.ofNat n).toNat = n := by
  simp [Char.ofNat, dif_pos h, Char.ofNatAux, Char.toNat, UInt32.toNat]

/-- Char.toLower is idempotent: lowering moves the basic latin capitals
into 97-122, outside the 65-90 window it acts on. -/
theorem char_toLower_idem (c : Char) : c.toLower.toLower = c.toLower := by
  unfold Char.toLower
  by_cases h : c.toNat ≥ 65 ∧ c.toNat ≤ 90
  · rw [if_pos h]
    have hv : (c.toNat + 32).isValidChar := Or.inl (by omega)
    rw [char_toNat_ofNat_valid _ hv, if_neg (by omega)]
  · rw [if_neg h, if_neg h]

/-- A findSome? whose body guards a total function behaves as find?
followed by the function. -/
theorem findSome?_guard_eq {α β : Type} (p : α → Bool) (f : α → β) (l : List α) :
    l.findSome? (fun a => if p a then some (f a) else none) = (l.find? p).map f := by
  induction l with
  | nil => rfl
  | cons a t ih =>
    by_cases h : p a <;> simp [List.findSome?_cons, List.find?_cons, h, ih]

/-- filterMap length agrees with countP when isSome of the body agrees
with the predicate. -/
theorem length_filterMap_eq_countP {α β : Type} (f : α → Option β) (p : α → Bool)
    (h : ∀ a, (f a).isSome = p a) (l : List α) :
    (l.filterMap f).length = l.countP p := by
  induction l with
  | nil => rfl
  | cons a t ih =>
    cases hfa : f a
    · have hpa : p a = false := by rw [← h a, hfa]; rfl
      simp [List.filterMap_cons, List.countP_cons, hfa, hpa, ih]
    · have hpa : p a = true := by rw [← h a, hfa]; rfl
      simp [List.filterMap_cons, List.countP_cons, hfa, hpa, ih]

/-! ## Claim C1 -/

/-- Claim C1 counterexample: a fetch that fails with an error is
answered by scrape underscore job underscore detail with None, not with
a propagated error - indistinguishable from the not-found outcome. -/
theorem c1_counterexample :
    scrape_job_detail (Except.error "network error")
      "https://jobsbotswana.info/jobs/x/" = none := rfl

/-- Claim C1 (amended): scrape underscore job underscore detail
swallows every fetch failure and returns None, exactly as in the
not-found case (falsy extracted title); it never propagates a fetch
error. -/
theorem c1_theorem :
    (∀ e url, scrape_job_detail (Except.error e) url = none)
    ∧ (∀ url, scrape_job_detail (Except.ok none) url = none)
    ∧ (∀ soup url, pyTruthy (detailTitle soup) = false →
        scrape_job_detail (Except.ok (some soup)) url = none) := by
  refine ⟨fun e url => rfl, fun url => rfl, fun soup url h => ?_⟩
  simp [scrape_job_detail, h]

/-- Claim C1 witness: a page without any heading scrapes to None. -/
theorem c1_witness :
    scrape_job_detail (Except.ok (some (HNode.elem "html" [] [] []))) "u" = none :=
  c1_theorem.2.2 (HNode.elem "html" [] [] []) "u" rfl

/-! ## Claim C2 -/

/-- The PaginationInfo invariant claimed by the specification. -/
def paginationInvariant (p : PaginationInfo) : Prop :=
  p.has_next = decide (p.current_page < p.total_pages)
  ∧ p.has_previous = decide (p.current_page > 1)
  ∧ p.next_page = (if p.has_next then some (p.current_page + 1) else none)
  ∧ p.previous_page = (if p.has_previous then some (p.current_page - 1) else none)

/-- Claim C2 counterexample: the soft-fail envelope built for a failed
fetch of page 2 violates the invariant - current page 2 exceeds 1 yet
has-previous is false. -/
theorem c2_counterexample : ¬ paginationInvariant (failPagination 2) := by
  unfold paginationInvariant; decide

/-- Claim C2 (amended): every pagination resolver output satisfies the
invariant, but the soft-fail envelope pagination fixes both flags to
false and both neighbour pages to absent, which satisfies the invariant
only when the requested page is at most 1 (and not negative). -/
theorem c2_theorem :
    (∀ soup current_page, paginationInvariant (parse_pagination soup current_page))
    ∧ (∀ page, paginationInvariant (failPagination page) ↔ 0 ≤ page ∧ page ≤ 1) := by
  constructor
  · intro soup current_page
    exact ⟨rfl, rfl, rfl, rfl⟩
  · intro page
    unfold paginationInvariant failPagination
    simp only []
    constructor
    · rintro ⟨h1, h2, -, -⟩
      constructor
      · by_contra hneg
        rw [show (decide (page < 0)) = true from by simp; omega] at h1
        exact Bool.false_ne_true h1
      · by_contra hgt
        rw [show (decide (page > 1)) = true from by simp; omega] at h2
        exact Bool.false_ne_true h2
    · rintro ⟨h0, h1⟩
      refine ⟨?_, ?_, rfl, rfl⟩
      · rw [show (decide (page < 0)) = false from by simp; omega]
      · rw [show (decide (page > 1)) = false from by simp; omega]

/-! ## Claim C3 -/

/-- A listing entry carrying both a company class marker and a
separator-splittable title. -/
def c3Article : HNode :=
  .elem "article" ["post-1", "job_company-acme-job-vacancies"] []
    [.elem "h3" ["loop-item-title"] []
      [.elem "a" [] [("href", "https://jobsbotswana.info/jobs/engineer/")]
        [.text "Engineer – Beta Corp"]]]

/-- Claim C3 counterexample: on an entry with both a splittable title
and a company class marker, the extractor returns the class-derived
company, not the title-split result the claim requires. -/
theorem c3_counterexample :
    companyFromTitle c3Article = some "Beta Corp"
    ∧ extract_company c3Article = some "Acme"
    ∧ ("Acme" : String) ≠ "Beta Corp" :=
  ⟨rfl, rfl, by decide⟩

/-- Claim C3 (amended): company extraction consults the class list
first - whenever some class carries the company marker, the result is
that first marked class stripped of the known prefix and suffix and
title-cased, and the title is never consulted; the title split is only
a fallback for entries with no marked class. -/
theorem c3_theorem (article : HNode) (cls : String)
    (h : (classList article).find? (fun c => pyStartsWith c "job_company-") = some cls) :
    extract_company article
      = some (titleCaseSlug (pyReplace (pyReplace cls "job_company-" "") "-job-vacancies" "")) := by
  unfold extract_company companyFromClasses
  simp only [findSome?_guard_eq, h]
  rfl

/-- Claim C3 witness: the counterexample entry, through the amended
statement. -/
theorem c3_witness : extract_company c3Article = some "Acme" :=
  c3_theorem c3Article "job_company-acme-job-vacancies" rfl

/-! ## Claim C4 -/

/-- A successfully fetched page with no article.noo underscore job
match but one loadmore-item article that parses. -/
def c4Soup : HNode :=
  .elem "html" [] []
    [.elem "body" [] []
      [.elem "article" ["loadmore-item"]
        [("data-url", "https://jobsbotswana.info/jobs/clerk/"), ("data-title", "Clerk")] []]]

/-- Claim C4 counterexample: with zero matches of the canonical
selector, the operation still derives one entry from the
loadmore-item fallback instead of reporting zero entries. -/
theorem c4_counterexample :
    strat1 c4Soup = []
    ∧ (scrape_listings (Except.ok (some c4Soup)) 1 none none none).success = true
    ∧ (scrape_listings (Except.ok (some c4Soup)) 1 none none none).data.length = 1 :=
  ⟨rfl, rfl, rfl⟩

/-- Claim C4 (amended): the canonical selector is only the first of
five strategies: when it matches it alone supplies the entries, but on
zero matches the implementation falls back, in order, to
article.loadmore-item, articles inside div.posts-loop-content, articles
inside div.noo-job-list-row, and finally every article element; the
entry list is empty exactly when all five strategies produce nothing. -/
theorem c4_theorem (soup : HNode) :
    (strat1 soup ≠ [] → selectArticles soup = strat1 soup)
    ∧ (selectArticles soup = [] ↔
        strat1 soup = [] ∧ strat2 soup = [] ∧ strat3 soup = []
        ∧ strat4 soup = [] ∧ strat5 soup = []) := by
  constructor
  · intro h
    have h1 : (strat1 soup).isEmpty = false := by
      cases hh : (strat1 soup).isEmpty
      · rfl
      · exact absurd (List.isEmpty_iff.mp hh) h
    simp [selectArticles, h1]
  · unfold selectArticles
    cases h1 : (strat1 soup).isEmpty
      <;> cases h2 : (strat2 soup).isEmpty
      <;> cases h3 : (strat3 soup).isEmpty
      <;> cases h4 : (strat4 soup).isEmpty
      <;> cases h5 : (strat5 soup).isEmpty
      <;> simp_all [List.isEmpty_iff]

/-- Claim C4 witness: a page where the canonical selector does match
uses it alone. -/
theorem c4_witness :
    selectArticles (HNode.elem "html" [] []
        [HNode.elem "article" ["noo_job"] [] []])
      = [HNode.elem "article" ["noo_job"] [] []] :=
  (c4_theorem (HNode.elem "html" [] [] [HNode.elem "article" ["noo_job"] [] []])).1
    (fun h => nomatch h)

/-! ## Claim C5 -/

/-- The resolvedness test the discard rule counts: both the title and
the URL extract to a truthy value. -/
def bothResolved (a : HNode) : Bool :=
  pyTruthy (extract_title a) && pyTruthy (extract_url a)

/-- An article parses to a listing exactly when both required fields
resolve. -/
theorem parse_job_article_isSome (a : HNode) :
    (parse_job_article a).isSome = bothResolved a := by
  unfold parse_job_article bothResolved
  cases h1 : pyTruthy (extract_title a) <;> cases h2 : pyTruthy (extract_url a) <;>
    simp [h1, h2]

/-- Claim C5: an entry missing a truthy title or a truthy URL never
appears in the listing output, and the success message reports exactly
the number of entries for which both fields resolved. -/
theorem c5_theorem (soup : HNode) (page : Int) (category location job_type : Option String) :
    (scrape_listings (Except.ok (some soup)) page category location job_type).data.length
        = (selectArticles soup).countP bothResolved
    ∧ (scrape_listings (Except.ok (some soup)) page category location job_type).message
        = "Successfully fetched "
          ++ toString (scrape_listings (Except.ok (some soup)) page category location job_type).data.length
          ++ " jobs"
    ∧ ∀ a : HNode, (parse_job_article a).isSome = bothResolved a := by
  refine ⟨?_, rfl, parse_job_article_isSome⟩
  simp only [scrape_listings]
  exact length_filterMap_eq_countP parse_job_article bothResolved parse_job_article_isSome _

/-! ## Claim C6 -/

/-- A nonempty string has a false isEmpty flag. -/
theorem isEmpty_false_of_ne {s : String} (h : s ≠ "") : s.isEmpty = false := by
  cases hh : s.isEmpty
  · rfl
  · exact absurd ((String.isEmpty_iff s).mp hh) h

/-- Claim C6: for pages from 1 up and filters that are absent or
nonempty, the built listing URL is exactly the URL the specification
describes: one filter set gives the clean hierarchical path, zero or
several filters give the generic path with the fixed-order query
string, and page 1 never appends a page segment. -/
theorem c6_theorem (page : Int) (category location job_type : Option String)
    (hp : 1 ≤ page)
    (hc : category ≠ some "") (hl : location ≠ some "") (ht : job_type ≠ some "") :
    build_listing_url page category location job_type
      = specListingUrl page category location job_type := by
  have hemp : ∀ (o : Option String), o ≠ some "" → ∀ s, o = some s → s.isEmpty = false := by
    intro o ho s hs
    exact isEmpty_false_of_ne (fun he => ho (by rw [hs, he]))
  by_cases hpq : page = 1
  · subst hpq
    have hngt : ¬ ((1 : Int) > 1) := by omega
    cases category with
    | none =>
      cases location with
      | none =>
        cases job_type with
        | none => simp [build_listing_url, specListingUrl, filtersSetCount, pyTruthy, hngt]
        | some t =>
          simp [build_listing_url, specListingUrl, filtersSetCount, pyTruthy, hngt,
            hemp (some t) ht t rfl]
          simp only [String.append_assoc]
          rfl
      | some l =>
        cases job_type with
        | none =>
          simp [build_listing_url, specListingUrl, filtersSetCount, pyTruthy, hngt,
            hemp (some l) hl l rfl]
          simp only [String.append_assoc]
          rfl
        | some t =>
          simp [build_listing_url, specListingUrl, filtersSetCount, pyTruthy, hngt,
            hemp (some l) hl l rfl, hemp (some t) ht t rfl]
    | some c =>
      cases location with
      | none =>
        cases job_type with
        | none =>
          simp [build_listing_url, specListingUrl, filtersSetCount, pyTruthy, hngt,
            hemp (some c) hc c rfl]
          simp only [String.append_assoc]
          rfl
        | some t =>
          simp [build_listing_url, specListingUrl, filtersSetCount, pyTruthy, hngt,
            hemp (some c) hc c rfl, hemp (some t) ht t rfl]
      | some l =>
        cases job_type with
        | none =>
          simp [build_listing_url, specListingUrl, filtersSetCount, pyTruthy, hngt,
            hemp (some c) hc c rfl, hemp (some l) hl l rfl]
        | some t =>
          simp [build_listing_url, specListingUrl, filtersSetCount, pyTruthy, hngt,
            hemp (some c) hc c rfl, hemp (some l) hl l rfl, hemp (some t) ht t rfl]
  · have hgt : page > 1 := by omega
    have hbe : (page == 1) = false := by simp [hpq]
    cases category with
    | none =>
      cases location with
      | none =>
        cases job_type with
        | none => simp [build_listing_url, specListingUrl, filtersSetCount, pyTruthy, hbe, hgt]
        | some t =>
          simp [build_listing_url, specListingUrl, filtersSetCount, pyTruthy, hbe, hgt,
            hemp (some t) ht t rfl]
          simp only [String.append_assoc]
          rfl
      | some l =>
        cases job_type with
        | none =>
          simp [build_listing_url, specListingUrl, filtersSetCount, pyTruthy, hbe, hgt,
            hemp (some l) hl l rfl]
          simp only [String.append_assoc]
          rfl
        | some t =>
          simp [build_listing_url, specListingUrl, filtersSetCount, pyTruthy, hbe, hgt,
            hemp (some l) hl l rfl, hemp (some t) ht t rfl]
    | some c =>
      cases location with
      | none =>
        cases job_type with
        | none =>
          simp [build_listing_url, specListingUrl, filtersSetCount, pyTruthy, hbe, hgt,
            hemp (some c) hc c rfl]
          simp only [String.append_assoc]
          rfl
        | some t =>
          simp [build_listing_url, specListingUrl, filtersSetCount, pyTruthy, hbe, hgt,
            hemp (some c) hc c rfl, hemp (some t) ht t rfl]
      | some l =>
        cases job_type with
        | none =>
          simp [build_listing_url, specListingUrl, filtersSetCount, pyTruthy, hbe, hgt,
            hemp (some c) hc c rfl, hemp (some l) hl l rfl]
        | some t =>
          simp [build_listing_url, specListingUrl, filtersSetCount, pyTruthy, hbe, hgt,
            hemp (some c) hc c rfl, hemp (some l) hl l rfl, hemp (some t) ht t rfl]

/-- Claim C6 witness: page 2 with a single category filter takes the
clean hierarchical path with a page segment and no query string. -/
theorem c6_witness :
    build_listing_url 2 (some "finance") none none
      = "https://jobsbotswana.info/job-category/finance/page/2/" := by
  rw [c6_theorem 2 (some "finance") none none (by decide)
    (by decide) (by decide) (by decide)]
  rfl

/-! ## Claim C7 -/

/-- Claim C7: for both facet kinds, a call without force-refresh on a
present slot younger than the TTL returns the cached value (empty lists
included) with the was-cached flag and leaves the slot alone; a forced
call, an absent slot, or an expired slot always re-scrapes, overwrites
the slot with the fresh value at the current instant, and reports it as
not cached - so an expired value is never returned. -/
theorem c7_theorem (force_refresh : Bool) (now : Int) :
    (∀ (cache : Option (List JobCategory × Int)) scraped v t,
        force_refresh = false → cache = some (v, t) → now - t < cache_ttl →
        get_categories force_refresh cache scraped now = ((v, true), cache))
    ∧ (∀ (cache : Option (List JobCategory × Int)) scraped,
        (force_refresh = true ∨ cache = none
          ∨ (∀ v t, cache = some (v, t) → cache_ttl ≤ now - t)) →
        get_categories force_refresh cache scraped now
          = ((scraped, false), some (scraped, now)))
    ∧ (∀ (cache : Option (List JobLocation × Int)) scraped v t,
        force_refresh = false → cache = some (v, t) → now - t < cache_ttl →
        get_locations force_refresh cache scraped now = ((v, true), cache))
    ∧ (∀ (cache : Option (List JobLocation × Int)) scraped,
        (force_refresh = true ∨ cache = none
          ∨ (∀ v t, cache = some (v, t) → cache_ttl ≤ now - t)) →
        get_locations force_refresh cache scraped now
          = ((scraped, false), some (scraped, now))) := by
  refine ⟨?_, ?_, ?_, ?_⟩
  · intro cache scraped v t hf hcache hfresh
    subst hf; subst hcache
    simp [get_categories, is_cache_valid, hfresh]
  · intro cache scraped h
    rcases h with hf | hnone | hexp
    · subst hf; rfl
    · subst hnone; cases force_refresh <;> rfl
    · cases force_refresh
      · cases cache with
        | none => rfl
        | some vt =>
          obtain ⟨v, t⟩ := vt
          have hvd := hexp v t rfl
          have hstale : ¬ (now - t < cache_ttl) := by omega
          simp [get_categories, is_cache_valid, hstale]
      · rfl
  · intro cache scraped v t hf hcache hfresh
    subst hf; subst hcache
    simp [get_locations, is_cache_valid, hfresh]
  · intro cache scraped h
    rcases h with hf | hnone | hexp
    · subst hf; rfl
    · subst hnone; cases force_refresh <;> rfl
    · cases force_refresh
      · cases cache with
        | none => rfl
        | some vt =>
          obtain ⟨v, t⟩ := vt
          have hvd := hexp v t rfl
          have hstale : ¬ (now - t < cache_ttl) := by omega
          simp [get_locations, is_cache_valid, hstale]
      · rfl

/-- Claim C7 witness: a fresh cached empty category list is served from
the cache. -/
theorem c7_witness :
    get_categories false (some ([], 10)) [{ slug := "a", name := "A" }] 100
      = (([], true), some ([], 10)) :=
  (c7_theorem false 100).1 (some ([], 10)) [{ slug := "a", name := "A" }] [] 10
    rfl rfl (by decide)

/-! ## Claim C8 -/

/-- Claim C8: in a successful detail scrape the stored description is
the single-space join of the first five paragraph texts of the content
container, kept verbatim when its length is at most 1000 characters and
replaced by exactly its first 1000 characters plus "..." when longer. -/
theorem c8_theorem (soup : HNode) (job_url : String) (job : JobListing) (content : HNode)
    (hjob : scrape_job_detail (Except.ok (some soup)) job_url = some job)
    (hc : contentElem soup = some content) :
    ((joinedParagraphText content).length > 1000 →
      job.description = some ((joinedParagraphText content).take 1000 ++ "..."))
    ∧ ((joinedParagraphText content).length ≤ 1000 →
      job.description = some (joinedParagraphText content)) := by
  have hdesc : job.description = detailDescription soup := by
    simp only [scrape_job_detail] at hjob
    cases h : pyTruthy (detailTitle soup) with
    | false => rw [h] at hjob; simp at hjob
    | true =>
      rw [h] at hjob
      simp only [Bool.not_true, Bool.false_eq_true, if_false, Option.some.injEq] at hjob
      rw [← hjob]
  rw [hdesc]
  unfold detailDescription
  rw [hc]
  by_cases hlen : (joinedParagraphText content).length > 1000
  · refine ⟨fun _ => ?_, fun hle => absurd hlen (by omega)⟩
    simp [hlen]
  · refine ⟨fun hgt => absurd hgt hlen, fun _ => ?_⟩
    simp [hlen]

/-- A detail page with a title and a short single-paragraph
description, for the claim C8 witness. -/
def c8WitSoup : HNode :=
  .elem "html" [] []
    [.elem "h1" ["entry-title"] [] [.text "T"],
     .elem "div" ["entry-content"] [] [.elem "p" [] [] [.text "hello"]]]

/-- The content container of c8WitSoup. -/
def c8WitContent : HNode :=
  .elem "div" ["entry-content"] [] [.elem "p" [] [] [.text "hello"]]

/-- The listing record the detail scrape produces for c8WitSoup. -/
def c8WitJob : JobListing :=
  { title := "T", url := "u", description := some "hello", source := "Jobs Botswana" }

/-- Claim C8 witness: a 5-character description is stored verbatim. -/
theorem c8_witness : c8WitJob.description = some "hello" :=
  (c8_theorem c8WitSoup "u" c8WitJob c8WitContent rfl rfl).2 (by decide)

/-! ## Claim C9 -/

/-- One character of the slug fallback is a fixed point of a second
pass: lowering then space-to-hyphen substitution lands on characters
the pass leaves alone. -/
theorem slug_char_idem (c : Char) :
    (if Char.toLower (if Char.toLower c == ' ' then '-' else Char.toLower c) == ' ' then '-'
     else Char.toLower (if Char.toLower c == ' ' then '-' else Char.toLower c))
      = (if Char.toLower c == ' ' then '-' else Char.toLower c) := by
  by_cases h : Char.toLower c = ' '
  · simp only [h]
    decide
  · have hb : (Char.toLower c == ' ') = false := by simp [h]
    simp only [hb, if_false, Bool.false_eq_true, char_toLower_idem]

/-- Claim C9: the name-derived facet slug fallback (lowercase, spaces
to hyphens) is idempotent, hence deterministic under repetition. -/
theorem c9_theorem (x : String) : nameToSlug (nameToSlug x) = nameToSlug x := by
  show String.mk ((((x.data.map Char.toLower).map (fun c => if c == ' ' then '-' else c)).map
        Char.toLower).map (fun c => if c == ' ' then '-' else c))
      = String.mk ((x.data.map Char.toLower).map (fun c => if c == ' ' then '-' else c))
  congr 1
  induction x.data with
  | nil => rfl
  | cons c rest ih =>
    simp only [List.map_cons, List.cons.injEq]
    exact ⟨slug_char_idem c, ih⟩

/-! ## Claim C10 -/

/-- After a dict assignment the assigned key maps to the assigned
value. -/
theorem getEntries_setEntries_self (l : List (String × Scraper)) (k : String) (v : Scraper) :
    getEntries (setEntries l k v) k = some v := by
  induction l with
  | nil => simp [setEntries, getEntries]
  | cons kv rest ih =>
    obtain ⟨k0, v0⟩ := kv
    by_cases h : k0 = k
    · simp [setEntries, getEntries, h]
    · simp [setEntries, getEntries, h, ih]

/-- After a dict assignment the assigned key is among the keys. -/
theorem key_mem_setEntries (l : List (String × Scraper)) (k : String) (v : Scraper) :
    k ∈ (setEntries l k v).map Prod.fst := by
  induction l with
  | nil => simp [setEntries]
  | cons kv rest ih =>
    obtain ⟨k0, v0⟩ := kv
    by_cases h : k0 = k
    · simp [setEntries, h]
    · simp [setEntries, h, ih]

/-- After a dict assignment the assigned value is among the values. -/
theorem value_mem_setEntries (l : List (String × Scraper)) (k : String) (v : Scraper) :
    v ∈ (setEntries l k v).map Prod.snd := by
  induction l with
  | nil => simp [setEntries]
  | cons kv rest ih =>
    obtain ⟨k0, v0⟩ := kv
    by_cases h : k0 = k
    · simp [setEntries, h]
    · simp [setEntries, h, ih]

/-- A dict is nonempty after an assignment. -/
theorem setEntries_ne_nil (l : List (String × Scraper)) (k : String) (v : Scraper) :
    setEntries l k v ≠ [] := by
  cases l with
  | nil => simp [setEntries]
  | cons kv rest =>
    obtain ⟨k0, v0⟩ := kv
    by_cases h : k0 = k <;> simp [setEntries, h]

/-- Claim C10: the scraper table lives on the class object, so a
registration through one instance with no shadowing attribute is
visible through get, get-all, source-info and list-sources of every
other such instance, and a freshly constructed registry is never empty
once a registration has happened. -/
theorem c10_theorem (i1 i2 : ScraperRegistryInstance) (cls : ScraperRegistryClass) (s : Scraper)
    (h1 : i1.own_scrapers = none) (h2 : i2.own_scrapers = none) :
    registry_get i2 (registry_register i1 cls s).2 s.source_id = some s
    ∧ s.source_id ∈ registry_list_sources i2 (registry_register i1 cls s).2
    ∧ (registry_get_all i2 (registry_register i1 cls s).2).get? s.source_id = some s
    ∧ scraper_source_info s ∈ registry_source_info i2 (registry_register i1 cls s).2
    ∧ registry_list_sources newRegistryInstance (registry_register i1 cls s).2 ≠ [] := by
  have hreg : (registry_register i1 cls s).2 = { scrapers := cls.scrapers.set s.source_id s } := by
    unfold registry_register
    rw [h1]
  rw [hreg]
  unfold registry_get registry_get_all registry_list_sources registry_source_info registryLookup
  rw [h2]
  simp only [Option.getD_none]
  refine ⟨getEntries_setEntries_self _ _ _, key_mem_setEntries _ _ _,
    getEntries_setEntries_self _ _ _, List.mem_map_of_mem _ (value_mem_setEntries _ _ _),
    ?_⟩
  show (newRegistryInstance.own_scrapers.getD _).keys ≠ []
  simp only [newRegistryInstance, Option.getD_none]
  intro hk
  exact setEntries_ne_nil cls.scrapers.entries s.source_id s (List.map_eq_nil_iff.mp hk)

/-- The model of the one scraper the repository registers. -/
def jobs_botswana_scraper : Scraper :=
  { source_id := "jobsbotswana",
    source_name := "Jobs Botswana",
    base_url := "https://jobsbotswana.info",
    description := "Leading job portal for employment opportunities in Botswana" }

/-- Claim C10 witness: registering the Jobs Botswana scraper through
one fresh instance makes it visible through another fresh instance. -/
theorem c10_witness :
    registry_get newRegistryInstance
      (registry_register newRegistryInstance { scrapers := ⟨[]⟩ } jobs_botswana_scraper).2
      "jobsbotswana" = some jobs_botswana_scraper :=
  (c10_theorem newRegistryInstance newRegistryInstance { scrapers := ⟨[]⟩ }
    jobs_botswana_scraper rfl rfl).1
